import Mathlib

/-!
Verification development for the Career Referee application
(`src/models.py`, `src/referee_agent.py`).

Python strings are modelled as Lean `String` / `List Char` (the inputs of
interest are ASCII); Python functions that can raise are modelled as
functions into `Except String _`, the error payload being the exception
message.  The third-party JSON decoder (`json.loads`) is not part of the
repository and is modelled as an oracle parameter producing an abstract
JSON `Value`.
-/

namespace Referee

/-! ### Python string primitives -/

/-- Python `str.strip()` from the left: drop leading whitespace. -/
def lstrip (s : List Char) : List Char := s.dropWhile Char.isWhitespace

/-- Python `str.strip()` from the right: drop trailing whitespace. -/
def rstrip (s : List Char) : List Char := (s.reverse.dropWhile Char.isWhitespace).reverse

/-- Python `str.strip()`. -/
def pstrip (s : List Char) : List Char := rstrip (lstrip s)

/-- Python `str.lower()` (ASCII fragment). -/
def pyLower (s : List Char) : List Char := s.map Char.toLower

/-- Python `str.lower()` at the `String` level. -/
def pyLowerS (s : String) : String := String.mk (pyLower s.toList)

/-- Python `needle in haystack` on strings: substring test. -/
def isSubstrB (p s : List Char) : Bool :=
  p.isPrefixOf s ||
    match s with
    | [] => false
    | _ :: t => isSubstrB p t

/-- The single-quote character, used by Python `repr` of strings. -/
def sq : String := String.mk [Char.ofNat 39]

/-- Python `repr` of a list of strings, as interpolated into f-strings,
e.g. `['career_a']`. -/
def pyListRepr (l : List String) : String :=
  "[" ++ String.intercalate ", " (l.map (fun s => sq ++ s ++ sq)) ++ "]"

/-! ### Data model (`src/models.py`) -/

/-- The `CareerInfo` dataclass of `src/models.py`. -/
structure CareerInfo where
  overview : String
  skills : String
  salary : String
  time_to_enter : String
  pros : List String
  cons : List String
deriving DecidableEq, Repr

/-- Construction of a `CareerInfo`, running `CareerInfo.__post_init__`:
`pros` and `cons` must be lists with exactly 3 items, else `ValueError`. -/
def CareerInfo.make (overview skills salary time_to_enter : String)
    (pros cons : List String) : Except String CareerInfo :=
  if pros.length = 3 then
    if cons.length = 3 then
      .ok ⟨overview, skills, salary, time_to_enter, pros, cons⟩
    else .error "Cons must be a list with exactly 3 items"
  else .error "Pros must be a list with exactly 3 items"

/-- The `ComparisonResult` dataclass of `src/models.py`. -/
structure ComparisonResult where
  career_a : CareerInfo
  career_b : CareerInfo
  decision_guide : List String
deriving DecidableEq, Repr

/-- Construction of a `ComparisonResult`, running
`ComparisonResult.__post_init__`: `decision_guide` must be a list with at
least 2 items, else `ValueError`. -/
def ComparisonResult.make (career_a career_b : CareerInfo)
    (decision_guide : List String) : Except String ComparisonResult :=
  if 2 ≤ decision_guide.length then
    .ok ⟨career_a, career_b, decision_guide⟩
  else .error "Decision guide must be a list with at least 2 guidance statements"

/-! ### Regular-expression engine

The salary normalizer of `src/referee_agent.py` uses `re.search` with a
small fixed set of patterns.  We embed exactly the constructs those
patterns use: literals, character classes, `[..]*`, `[..]+`, `e?`,
concatenation, alternation and the word-boundary assertion `\b`. -/

/-- Regular expressions, restricted to the constructs used by the
salary-normalizer patterns. -/
inductive RE where
  | lit : List Char → RE
  | cls : (Char → Bool) → RE
  | clsStar : (Char → Bool) → RE
  | opt : RE → RE
  | seq : RE → RE → RE
  | alt : RE → RE → RE
  | wordB : RE

/-- Python `\w` (ASCII fragment): letters, digits, underscore. -/
def isWordChar (c : Char) : Bool := c.isAlphanum || c == '_'

/-- Word boundary between an optional previous character and an optional
next character. -/
def boundary (prev next : Option Char) : Bool :=
  (match prev with | some c => isWordChar c | none => false) !=
  (match next with | some c => isWordChar c | none => false)

/-- All stopping states of `[..]*` at the front of `s`: each state is the
last consumed character (if any) paired with the remaining input. -/
def starStates (p : Char → Bool) : Option Char → List Char → List (Option Char × List Char)
  | prev, [] => [(prev, [])]
  | prev, c :: rest =>
    (prev, c :: rest) :: (if p c then starStates p (some c) rest else [])

/-- All ways to match `r` at the front of `s`, given the character `prev`
immediately preceding `s` (for `\b`); each result is the new preceding
character paired with the remaining input. -/
def reMatch : RE → Option Char → List Char → List (Option Char × List Char)
  | .lit l, prev, s =>
    if l.isPrefixOf s then
      [((match l.getLast? with | some c => some c | none => prev), s.drop l.length)]
    else []
  | .cls p, _, s =>
    match s with
    | [] => []
    | c :: rest => if p c then [(some c, rest)] else []
  | .clsStar p, prev, s => starStates p prev s
  | .opt r, prev, s => (prev, s) :: reMatch r prev s
  | .seq a b, prev, s => (reMatch a prev s).flatMap (fun st => reMatch b st.1 st.2)
  | .alt a b, prev, s => reMatch a prev s ++ reMatch b prev s
  | .wordB, prev, s => if boundary prev s.head? then [(prev, s)] else []

/-- Search for a match of `r` starting at any position of `s`, tracking
the character preceding the current position. -/
def searchFrom (r : RE) : Option Char → List Char → Bool
  | prev, s =>
    !(reMatch r prev s).isEmpty ||
      match s with
      | [] => false
      | c :: rest => searchFrom r (some c) rest

/-- Python `re.search(r, s) is not None`. -/
def reSearch (r : RE) (s : List Char) : Bool := searchFrom r none s

/-- The class-plus `[..]+`, as `[..][..]*`. -/
def clsPlus (p : Char → Bool) : RE := .seq (.cls p) (.clsStar p)

/-- Literal word. -/
def word (s : String) : RE := .lit s.toList

/-- Alternation of a list of alternatives (the lists used are nonempty). -/
def alts : List RE → RE
  | [] => .lit [Char.ofNat 0]
  | [r] => r
  | r :: rs => .alt r (alts rs)

/-- Concatenation of a list of regular expressions. -/
def seqs : List RE → RE
  | [] => .lit []
  | [r] => r
  | r :: rs => .seq r (seqs rs)

/-! Character classes appearing in the salary patterns. -/

def isDigitC (c : Char) : Bool := c.isDigit
def isDigitComma (c : Char) : Bool := c.isDigit || c == ','
def isWS (c : Char) : Bool := c.isWhitespace
def d0to5 (c : Char) : Bool := '0' ≤ c && c ≤ '5'
def d1to9 (c : Char) : Bool := '1' ≤ c && c ≤ '9'
def d6to9 (c : Char) : Bool := '6' ≤ c && c ≤ '9'
def d8to9 (c : Char) : Bool := '8' ≤ c && c ≤ '9'

/-! ### Salary normalizer (`standardize_salary` inside
`_standardize_salary_format`, `src/referee_agent.py` lines 323-369) -/

/-- Pattern `\b(low|poor|minimal|entry|junior|starting|below|under)\b` -/
def low_pattern_kw : RE :=
  .seq .wordB (.seq
    (alts [word "low", word "poor", word "minimal", word "entry",
           word "junior", word "starting", word "below", word "under"])
    .wordB)

/-- Pattern `\$?[0-9,]+\s*-?\s*\$?[0-5][0-9],?000`  (source comment: Under 60k) -/
def low_pattern_range : RE :=
  seqs [.opt (word "$"), clsPlus isDigitComma, .clsStar isWS, .opt (word "-"),
        .clsStar isWS, .opt (word "$"), .cls d0to5, .cls isDigitC,
        .opt (word ","), word "000"]

/-- Pattern `\b[0-5][0-9]k?\b`  (source comment: Under 60k) -/
def low_pattern_2d : RE :=
  seqs [.wordB, .cls d0to5, .cls isDigitC, .opt (word "k"), .wordB]

def low_patterns : List RE := [low_pattern_kw, low_pattern_range, low_pattern_2d]

/-- Pattern `\b(high|excellent|premium|senior|executive|above|over|top)\b` -/
def high_pattern_kw : RE :=
  .seq .wordB (.seq
    (alts [word "high", word "excellent", word "premium", word "senior",
           word "executive", word "above", word "over", word "top"])
    .wordB)

/-- Pattern `\$?[1-9][0-9][0-9],?000`  (source comment: 100k+) -/
def high_pattern_6fig : RE :=
  seqs [.opt (word "$"), .cls d1to9, .cls isDigitC, .cls isDigitC,
        .opt (word ","), word "000"]

/-- Pattern `\b[1-9][0-9][0-9]k?\b`  (source comment: 100k+) -/
def high_pattern_3d : RE :=
  seqs [.wordB, .cls d1to9, .cls isDigitC, .cls isDigitC, .opt (word "k"), .wordB]

/-- Pattern `[8-9][0-9],?000`  (source comment: 80k-99k, upper medium to high) -/
def high_pattern_80 : RE :=
  seqs [.cls d8to9, .cls isDigitC, .opt (word ","), word "000"]

/-- Pattern `\b[8-9][0-9]k\b`  (source comment: 80k-99k) -/
def high_pattern_80k : RE :=
  seqs [.wordB, .cls d8to9, .cls isDigitC, word "k", .wordB]

def high_patterns : List RE :=
  [high_pattern_kw, high_pattern_6fig, high_pattern_3d, high_pattern_80, high_pattern_80k]

/-- Pattern `\b(medium|average|moderate|mid|middle|fair|decent|competitive)\b` -/
def medium_pattern_kw : RE :=
  .seq .wordB (.seq
    (alts [word "medium", word "average", word "moderate", word "mid",
           word "middle", word "fair", word "decent", word "competitive"])
    .wordB)

/-- Pattern `\$?[6-9][0-9],?000`  (source comment: 60k-99k) -/
def medium_pattern_range : RE :=
  seqs [.opt (word "$"), .cls d6to9, .cls isDigitC, .opt (word ","), word "000"]

/-- Pattern `\b[6-9][0-9]k?\b`  (source comment: 60k-99k) -/
def medium_pattern_2d : RE :=
  seqs [.wordB, .cls d6to9, .cls isDigitC, .opt (word "k"), .wordB]

def medium_patterns : List RE := [medium_pattern_kw, medium_pattern_range, medium_pattern_2d]

/-- Python `any(re.search(p, s) for p in ps)`. -/
def anyMatch (ps : List RE) (s : List Char) : Bool := ps.any (fun p => reSearch p s)

/-- The local variable `salary_lower = salary_str.lower().strip()` of
`standardize_salary`. -/
def salary_lower_of (salary_str : String) : List Char :=
  pstrip (pyLower salary_str.toList)

/-- The inner `standardize_salary` function of `_standardize_salary_format`
(`src/referee_agent.py` lines 323-369). -/
def standardize_salary (salary_str : String) : String :=
  if salary_str = "" then "medium"
  else if salary_lower_of salary_str = "low".toList ∨
      salary_lower_of salary_str = "medium".toList ∨
      salary_lower_of salary_str = "high".toList then
    String.mk (salary_lower_of salary_str)
  else if anyMatch low_patterns (salary_lower_of salary_str) then "low"
  else if anyMatch high_patterns (salary_lower_of salary_str) then "high"
  else if anyMatch medium_patterns (salary_lower_of salary_str) then "medium"
  else "medium"

/-! ### JSON values

`json.loads` produces Python dicts/lists/strings.  The payloads the claims
are about have string leaves, so leaves are modelled as strings (plus an
integer leaf for generality). -/

/-- Abstract JSON value, the output type of the `json.loads` oracle. -/
inductive Value where
  | str : String → Value
  | num : Int → Value
  | list : List Value → Value
  | obj : List (String × Value) → Value

/-- Dictionary lookup `d[k]` / `k in d` (keys of the payloads of interest
are distinct). -/
def getItem : List (String × Value) → String → Option Value
  | [], _ => none
  | (k, v) :: rest, key => if k = key then some v else getItem rest key

/-- Python `key in dict`. -/
def hasKey (fields : List (String × Value)) (k : String) : Bool :=
  (getItem fields k).isSome

/-- Decode a string leaf. -/
def asStr : Value → Option String
  | .str s => some s
  | _ => none

/-- Decode a list of string leaves. -/
def decodeStrs : List Value → Option (List String)
  | [] => some []
  | .str s :: rest => (decodeStrs rest).map (fun l => s :: l)
  | _ => none

/-- Decode a list-of-strings leaf. -/
def asStrList : Value → Option (List String)
  | .list l => decodeStrs l
  | _ => none

/-! ### Serialization (`src/models.py` lines 62-93) -/

/-- The six `CareerInfo` field names, in the order `to_dict` emits them. -/
def required_career_fields : List String :=
  ["overview", "skills", "salary", "time_to_enter", "pros", "cons"]

/-- The dictionary form of one career inside `ComparisonResult.to_dict`. -/
def CareerInfo.to_dictV (c : CareerInfo) : Value :=
  .obj [("overview", .str c.overview), ("skills", .str c.skills),
        ("salary", .str c.salary), ("time_to_enter", .str c.time_to_enter),
        ("pros", .list (c.pros.map .str)), ("cons", .list (c.cons.map .str))]

/-- Method `ComparisonResult.to_dict`. -/
def ComparisonResult.to_dict (r : ComparisonResult) : Value :=
  .obj [("career_a", r.career_a.to_dictV), ("career_b", r.career_b.to_dictV),
        ("decision_guide", .list (r.decision_guide.map .str))]

/-- Construction `CareerInfo(**d)`: keyword expansion accepts exactly the six dataclass
field names (an extra key is a `TypeError`, a missing one likewise), then
runs `__post_init__`. -/
def careerInfo_of_kwargs (fields : List (String × Value)) : Except String CareerInfo :=
  if fields.all (fun kv => required_career_fields.contains kv.1) then
    match getItem fields "overview", getItem fields "skills", getItem fields "salary",
          getItem fields "time_to_enter", getItem fields "pros", getItem fields "cons" with
    | some ov, some sk, some sal, some tte, some pr, some co =>
      match asStr ov, asStr sk, asStr sal, asStr tte, asStrList pr, asStrList co with
      | some ov, some sk, some sal, some tte, some pr, some co =>
        CareerInfo.make ov sk sal tte pr co
      | _, _, _, _, _, _ => .error "CareerInfo field of unsupported shape"
    | _, _, _, _, _, _ => .error "missing keyword argument to CareerInfo"
  else .error "unexpected keyword argument to CareerInfo"

/-- Classmethod `ComparisonResult.from_dict`. -/
def ComparisonResult.from_dict (v : Value) : Except String ComparisonResult :=
  match v with
  | .obj fields =>
    match getItem fields "career_a", getItem fields "career_b",
          getItem fields "decision_guide" with
    | some (.obj fa), some (.obj fb), some dg =>
      match careerInfo_of_kwargs fa with
      | .error e => .error e
      | .ok career_a =>
        match careerInfo_of_kwargs fb with
        | .error e => .error e
        | .ok career_b =>
          match asStrList dg with
          | some g => ComparisonResult.make career_a career_b g
          | none => .error "decision_guide of unsupported shape"
    | _, _, _ => .error "KeyError or TypeError in from_dict"
  | _ => .error "from_dict expects a mapping"

/-! ### Response parser (`_parse_ai_response`, `src/referee_agent.py`
lines 223-310) -/

def fence3 : List Char := "```".toList
def fence7 : List Char := "```json".toList

/-- Dropping one leading fence marker: 7 characters for a labeled fence,
3 for a bare fence (lines 244-247). -/
def clean_strip1 (c : List Char) : List Char :=
  if fence7.isPrefixOf c then c.drop 7
  else if fence3.isPrefixOf c then c.drop 3
  else c

/-- Dropping one trailing fence marker (lines 249-250). -/
def clean_strip2 (c : List Char) : List Char :=
  if fence3.isSuffixOf c then c.take (c.length - 3) else c

/-- The markdown-fence cleanup of `_parse_ai_response` (lines 240-252):
strip, drop one leading labeled or bare fence, drop one trailing fence,
strip again. -/
def clean_response (s : List Char) : List Char :=
  pstrip (clean_strip2 (clean_strip1 (pstrip s)))

def top_required_fields : List String := ["career_a", "career_b", "decision_guide"]

/-- The `pros`/`cons` checks of `_parse_ai_response`: the value must be a
list with exactly 3 items. -/
def check_list_field (career_fields : List (String × Value))
    (career_key list_field : String) : Except String Unit :=
  match getItem career_fields list_field with
  | some (.list l) =>
    if l.length ≠ 3 then
      .error (list_field ++ " in " ++ career_key ++
        " must have exactly 3 items, got " ++ toString l.length)
    else .ok ()
  | _ => .error (list_field ++ " in " ++ career_key ++ " must be a list")

/-- The per-career validation loop body of `_parse_ai_response`
(lines 271-293). -/
def validate_career (data_fields : List (String × Value))
    (career_key : String) : Except String Unit :=
  match getItem data_fields career_key with
  | some (.obj career_fields) =>
    let missing := required_career_fields.filter (fun f => !(hasKey career_fields f))
    if missing ≠ [] then
      .error ("Missing fields in " ++ career_key ++ ": " ++ pyListRepr missing)
    else
      match (getItem career_fields "salary").getD (.str "") with
      | .str s =>
        if pyLowerS s = "low" ∨ pyLowerS s = "medium" ∨ pyLowerS s = "high" then
          match check_list_field career_fields career_key "pros" with
          | .error e => .error e
          | .ok _ => check_list_field career_fields career_key "cons"
        else
          .error ("Invalid salary format in " ++ career_key ++ ": " ++
            pyLowerS s ++ ". Must be low/medium/high")
      | _ =>
        -- `.lower()` on a non-string raises, wrapped by the outer handler
        .error "Unexpected error parsing response: lower"
  | some _ => .error (career_key ++ " must be an object")
  | none => .error (career_key ++ " missing")

/-- The validation steps of `_parse_ai_response` applied to the value
produced by `json.loads` (lines 261-303): object check, top-level key
check, per-career checks, decision-guide check, then
`ComparisonResult.from_dict`. -/
def parse_payload (data : Value) : Except String ComparisonResult :=
  match data with
  | .obj fields =>
    if top_required_fields.filter (fun f => !(hasKey fields f)) ≠ [] then
      .error ("Missing required fields: " ++
        pyListRepr (top_required_fields.filter (fun f => !(hasKey fields f))))
    else
      match validate_career fields "career_a" with
      | .error e => .error e
      | .ok _ =>
        match validate_career fields "career_b" with
        | .error e => .error e
        | .ok _ =>
          match getItem fields "decision_guide" with
          | some (.list dg) =>
            if dg.length < 2 then
              .error ("decision_guide must have at least 2 items, got " ++
                toString dg.length)
            else ComparisonResult.from_dict data
          | _ => .error "decision_guide must be a list"
  | _ => .error "Expected JSON object, got non-object"

/-- Function `_parse_ai_response`, with `json.loads` abstracted as the oracle
`jparse` (returning `none` exactly when `json.loads` raises
`JSONDecodeError`). -/
def _parse_ai_response (jparse : List Char → Option Value)
    (response : String) : Except String ComparisonResult :=
  if response = "" ∨ pstrip response.toList = [] then
    .error "Empty or null response from AI"
  else
    match jparse (clean_response response.toList) with
    | none => .error "Invalid JSON format"
    | some data => parse_payload data

/-! ### Mock provider and salary standardization pass
(`src/referee_agent.py` lines 154-183 and 313-394) -/

/-- Function `_get_mock_comparison`. -/
def _get_mock_comparison (career_a career_b : String) : Except String ComparisonResult :=
  match CareerInfo.make
      (career_a ++ " involves specialized skills and offers various career paths. This field typically requires dedicated learning and practice.")
      ("Core skills for " ++ career_a ++ " include problem-solving, communication, and domain-specific technical abilities.")
      "medium" "2-4 years"
      ["Growing field", "Good opportunities", "Skill development"]
      ["Learning curve", "Competition", "Constant updates"] with
  | .error e => .error e
  | .ok career_a_info =>
    match CareerInfo.make
        (career_b ++ " offers unique opportunities and challenges. This career path has its own requirements and growth potential.")
        ("Essential skills for " ++ career_b ++ " include analytical thinking, creativity, and relevant technical knowledge.")
        "medium" "2-4 years"
        ["Diverse opportunities", "Creative work", "Professional growth"]
        ["Market variability", "Skill requirements", "Time investment"] with
    | .error e => .error e
    | .ok career_b_info =>
      ComparisonResult.make career_a_info career_b_info
        ["Choose " ++ career_a ++ " if you prefer structured problem-solving and technical challenges",
         "Choose " ++ career_b ++ " if you value creativity and diverse project opportunities"]

/-- Function `_standardize_salary_format`: rebuild both careers with normalized
salary, keep everything else. -/
def _standardize_salary_format (result : ComparisonResult) : Except String ComparisonResult :=
  match CareerInfo.make result.career_a.overview result.career_a.skills
      (standardize_salary result.career_a.salary) result.career_a.time_to_enter
      result.career_a.pros result.career_a.cons with
  | .error e => .error e
  | .ok standardized_career_a =>
    match CareerInfo.make result.career_b.overview result.career_b.skills
        (standardize_salary result.career_b.salary) result.career_b.time_to_enter
        result.career_b.pros result.career_b.cons with
    | .error e => .error e
    | .ok standardized_career_b =>
      ComparisonResult.make standardized_career_a standardized_career_b result.decision_guide

/-! ### Orchestrator (`run_referee`, `src/referee_agent.py` lines 28-66) -/

/-- The ambient environment of one `run_referee` call: library
availability, configuration, and the outcomes of the two network
providers (abstract, since they depend on external servers). -/
structure Env where
  requests_available : Bool
  ollama_reachable : Bool
  openai_available : Bool
  openai_api_key : Option String
  ollama_result : Except String ComparisonResult
  openai_result : Except String ComparisonResult

/-- Python truthiness of `os.getenv(..)`. -/
def truthyStr : Option String → Bool
  | none => false
  | some s => s ≠ ""

/-- Probe `_is_ollama_available`: requires the `requests` library and a
status-200 probe response. -/
def _is_ollama_available (env : Env) : Bool :=
  env.requests_available && env.ollama_reachable

/-- One iteration body of the provider loop: on success of the provider
call and of `_standardize_salary_format`, return the result; any raised
exception is caught and the loop continues (`none`). -/
def try_provider (res : Except String ComparisonResult) : Option ComparisonResult :=
  match res with
  | .error _ => none
  | .ok result =>
    match _standardize_salary_format result with
    | .ok r => some r
    | .error _ => none

/-- Orchestrator `run_referee`: providers in preference order ollama, openai, mock;
each guarded by its availability condition; the final fallback (line 66)
returns the mock comparison without the standardization pass. -/
def run_referee (env : Env) (career_a career_b : String) : Except String ComparisonResult :=
  match (if _is_ollama_available env then try_provider env.ollama_result else none) with
  | some r => .ok r
  | none =>
    match (if env.openai_available && truthyStr env.openai_api_key then
        try_provider env.openai_result else none) with
    | some r => .ok r
    | none =>
      match try_provider (_get_mock_comparison career_a career_b) with
      | some r => .ok r
      | none => _get_mock_comparison career_a career_b

/-- The mock comparison result, as a first-class value. -/
def mock_result (career_a career_b : String) : ComparisonResult :=
  ⟨⟨career_a ++ " involves specialized skills and offers various career paths. This field typically requires dedicated learning and practice.",
    "Core skills for " ++ career_a ++ " include problem-solving, communication, and domain-specific technical abilities.",
    "medium", "2-4 years",
    ["Growing field", "Good opportunities", "Skill development"],
    ["Learning curve", "Competition", "Constant updates"]⟩,
   ⟨career_b ++ " offers unique opportunities and challenges. This career path has its own requirements and growth potential.",
    "Essential skills for " ++ career_b ++ " include analytical thinking, creativity, and relevant technical knowledge.",
    "medium", "2-4 years",
    ["Diverse opportunities", "Creative work", "Professional growth"],
    ["Market variability", "Skill requirements", "Time investment"]⟩,
   ["Choose " ++ career_a ++ " if you prefer structured problem-solving and technical challenges",
    "Choose " ++ career_b ++ " if you value creativity and diverse project opportunities"]⟩

/-- A well-formed career object for the C8 witness. -/
def witness_career (sal : String) : Value :=
  .obj [("overview", .str "ov"), ("skills", .str "sk"), ("salary", .str sal),
        ("time_to_enter", .str "2-4 years"),
        ("pros", .list [.str "p1", .str "p2", .str "p3"]),
        ("cons", .list [.str "c1", .str "c2", .str "c3"])]

/-- A well-formed payload for the C8 witness. -/
def witness_payload : Value :=
  .obj [("career_a", witness_career "medium"), ("career_b", witness_career "High"),
        ("decision_guide", .list [.str "g1", .str "g2"])]

/-- A concrete `json.loads` oracle recognising one payload text. -/
def witness_jparse : List Char → Option Value :=
  fun s => if s = "\x7bmock\x7d".toList then some witness_payload else none

/-- The parse result of the C8 witness payload. -/
def witness_result : ComparisonResult :=
  ⟨⟨"ov", "sk", "medium", "2-4 years", ["p1", "p2", "p3"], ["c1", "c2", "c3"]⟩,
   ⟨"ov", "sk", "High", "2-4 years", ["p1", "p2", "p3"], ["c1", "c2", "c3"]⟩,
   ["g1", "g2"]⟩

/-! ## General lemmas -/

theorem isSubstrB_append (p r : List Char) : isSubstrB p (p ++ r) = true := by
  have hp : p.isPrefixOf (p ++ r) = true := by
    rw [ List.isPrefixOf_iff_prefix]
    exact List.prefix_append p r
  rw [isSubstrB.eq_def, hp, Bool.true_or]

/-- The salary normalizer only ever produces the three tier names. -/
theorem standardize_salary_total (s : String) :
    standardize_salary s = "low" ∨ standardize_salary s = "medium" ∨
      standardize_salary s = "high" := by
  unfold standardize_salary
  split
  · exact Or.inr (Or.inl rfl)
  · split
    · rename_i h
      rcases h with h | h | h <;> rw [h]
      · exact Or.inl rfl
      · exact Or.inr (Or.inl rfl)
      · exact Or.inr (Or.inr rfl)
    · split
      · exact Or.inl rfl
      · split
        · exact Or.inr (Or.inr rfl)
        · split
          · exact Or.inr (Or.inl rfl)
          · exact Or.inr (Or.inl rfl)

/-- Inversion for `CareerInfo.make`. -/
theorem careerInfo_make_ok (o sk sal t : String) (pros cons : List String)
    (c : CareerInfo) (h : CareerInfo.make o sk sal t pros cons = .ok c) :
    c = ⟨o, sk, sal, t, pros, cons⟩ := by
  unfold CareerInfo.make at h
  split at h
  · split at h
    · injection h with h'
      exact h'.symm
    · simp at h
  · simp at h

/-- Inversion for `ComparisonResult.make`. -/
theorem comparisonResult_make_ok (ca cb : CareerInfo) (g : List String)
    (r : ComparisonResult) (h : ComparisonResult.make ca cb g = .ok r) :
    r = ⟨ca, cb, g⟩ := by
  unfold ComparisonResult.make at h
  split at h
  · injection h with h'
    exact h'.symm
  · simp at h

/-- Success shape of `_standardize_salary_format`: the output is the input
with both salary fields normalized and every other field untouched. -/
theorem standardize_format_ok (r r' : ComparisonResult)
    (h : _standardize_salary_format r = .ok r') :
    r' = ⟨⟨r.career_a.overview, r.career_a.skills,
            standardize_salary r.career_a.salary, r.career_a.time_to_enter,
            r.career_a.pros, r.career_a.cons⟩,
          ⟨r.career_b.overview, r.career_b.skills,
            standardize_salary r.career_b.salary, r.career_b.time_to_enter,
            r.career_b.pros, r.career_b.cons⟩,
          r.decision_guide⟩ := by
  unfold _standardize_salary_format at h
  split at h
  · simp at h
  · rename_i ca hca
    split at h
    · simp at h
    · rename_i cb hcb
      rw [comparisonResult_make_ok ca cb r.decision_guide r' h,
        careerInfo_make_ok _ _ _ _ _ _ _ hca, careerInfo_make_ok _ _ _ _ _ _ _ hcb]

theorem mock_ok (a b : String) : _get_mock_comparison a b = .ok (mock_result a b) := rfl

theorem try_provider_mock (a b : String) :
    try_provider (_get_mock_comparison a b) = some (mock_result a b) := rfl

theorem try_provider_some (res : Except String ComparisonResult) (r : ComparisonResult)
    (h : try_provider res = some r) :
    ∃ r₀, _standardize_salary_format r₀ = .ok r := by
  unfold try_provider at h
  split at h
  · simp at h
  · rename_i result
    split at h
    · rename_i r₁ heq
      injection h with h'
      subst h'
      exact ⟨result, heq⟩
    · simp at h

theorem toList_append (a b : String) : (a ++ b).toList = a.toList ++ b.toList :=
  String.data_append a b

theorem ite_some_elim {α : Type} {c : Prop} [Decidable c] {x : Option α} {r : α}
    (h : (if c then x else none) = some r) : x = some r := by
  split at h
  · exact h
  · simp at h

/-- Both salary fields of a `_standardize_salary_format` output are tier
names. -/
theorem std_output_salaries (r₀ r : ComparisonResult)
    (h : _standardize_salary_format r₀ = .ok r) :
    (r.career_a.salary = "low" ∨ r.career_a.salary = "medium" ∨
      r.career_a.salary = "high") ∧
    (r.career_b.salary = "low" ∨ r.career_b.salary = "medium" ∨
      r.career_b.salary = "high") := by
  rw [standardize_format_ok r₀ r h]
  exact ⟨standardize_salary_total _, standardize_salary_total _⟩

/-! ## Claims -/

/-- C1: the claim states that any supported spelling of a figure N maps to
"low" below 60,000, "medium" on [60,000, 80,000) and "high" at or above
80,000, listing "$45,000", "45k", "45", "85,000" and "150,000" among the
supported spellings.  The code disagrees on "150,000" (N = 150,000 ≥
80,000, yet the `Under 60k` pattern
`\$?[0-9,]+\s*-?\s*\$?[0-5][0-9],?000` fires on it) and on the bare
spelling "85" (N = 85,000 ≥ 80,000, yet only the medium pattern
`\b[6-9][0-9]k?\b` fires).  This theorem evaluates the embedded
normalizer at the failing inputs and at inputs where the claim holds. -/
theorem C1_numeric_tier_eval :
    standardize_salary "150,000" = "low" ∧
    standardize_salary "85" = "medium" ∧
    standardize_salary "85,000" = "high" ∧
    standardize_salary "$45,000" = "low" ∧
    standardize_salary "45k" = "low" ∧
    standardize_salary "45" = "low" := by
  refine ⟨rfl, rfl, rfl, rfl, rfl, rfl⟩

/-- C2: when the local-inference probe fails and no hosted-API credential
is configured, `run_referee` never raises and returns the mock-derived
result: both career names appear verbatim in the respective overviews,
both salaries are "medium", and the decision guide has exactly 2
elements. -/
theorem C2_mock_fallback (env : Env) (a b : String)
    (hollama : _is_ollama_available env = false)
    (hkey : env.openai_api_key = none) :
    ∃ r, run_referee env a b = .ok r ∧
      isSubstrB a.toList r.career_a.overview.toList = true ∧
      isSubstrB b.toList r.career_b.overview.toList = true ∧
      r.career_a.salary = "medium" ∧ r.career_b.salary = "medium" ∧
      r.decision_guide.length = 2 := by
  refine ⟨mock_result a b, ?_, ?_, ?_, rfl, rfl, rfl⟩
  · unfold run_referee
    rw [hollama, hkey]
    simp [truthyStr, try_provider_mock]
  · have hov : (mock_result a b).career_a.overview =
        a ++ " involves specialized skills and offers various career paths. This field typically requires dedicated learning and practice." := rfl
    rw [hov, toList_append]
    exact isSubstrB_append _ _
  · have hov : (mock_result a b).career_b.overview =
        b ++ " offers unique opportunities and challenges. This career path has its own requirements and growth potential." := rfl
    rw [hov, toList_append]
    exact isSubstrB_append _ _

/-- C2 witness: the theorem at a concrete offline environment. -/
theorem C2_mock_fallback_witness :
    ∃ r, run_referee ⟨false, false, false, none, .error "offline", .error "offline"⟩
        "Nurse" "Teacher" = .ok r ∧
      isSubstrB "Nurse".toList r.career_a.overview.toList = true ∧
      isSubstrB "Teacher".toList r.career_b.overview.toList = true ∧
      r.career_a.salary = "medium" ∧ r.career_b.salary = "medium" ∧
      r.decision_guide.length = 2 :=
  C2_mock_fallback ⟨false, false, false, none, .error "offline", .error "offline"⟩
    "Nurse" "Teacher" rfl rfl

/-- C3: every `ComparisonResult` returned by `run_referee` has both salary
fields equal to one of "low", "medium", "high", and is the output of a
`_standardize_salary_format` pass. -/
theorem C3_salary_invariant (env : Env) (a b : String) (r : ComparisonResult)
    (h : run_referee env a b = .ok r) :
    (r.career_a.salary = "low" ∨ r.career_a.salary = "medium" ∨
      r.career_a.salary = "high") ∧
    (r.career_b.salary = "low" ∨ r.career_b.salary = "medium" ∨
      r.career_b.salary = "high") ∧
    ∃ r₀, _standardize_salary_format r₀ = .ok r := by
  unfold run_referee at h
  split at h
  · rename_i r₁ h₁
    injection h with h'
    subst h'
    obtain ⟨r₀, hstd⟩ := try_provider_some _ _ (ite_some_elim h₁)
    exact ⟨(std_output_salaries _ _ hstd).1, (std_output_salaries _ _ hstd).2, r₀, hstd⟩
  · split at h
    · rename_i r₂ h₂
      injection h with h'
      subst h'
      obtain ⟨r₀, hstd⟩ := try_provider_some _ _ (ite_some_elim h₂)
      exact ⟨(std_output_salaries _ _ hstd).1, (std_output_salaries _ _ hstd).2, r₀, hstd⟩
    · split at h
      · rename_i r₃ h₃
        injection h with h'
        subst h'
        obtain ⟨r₀, hstd⟩ := try_provider_some _ _ h₃
        exact ⟨(std_output_salaries _ _ hstd).1, (std_output_salaries _ _ hstd).2, r₀, hstd⟩
      · rename_i h₃
        rw [try_provider_mock] at h₃
        simp at h₃

/-- C3 witness: the theorem at a concrete offline environment. -/
theorem C3_salary_invariant_witness :
    run_referee ⟨false, false, false, none, .error "e1", .error "e2"⟩
        "Doctor" "Pilot" = .ok (mock_result "Doctor" "Pilot") ∧
    (((mock_result "Doctor" "Pilot").career_a.salary = "low" ∨
      (mock_result "Doctor" "Pilot").career_a.salary = "medium" ∨
      (mock_result "Doctor" "Pilot").career_a.salary = "high") ∧
     ((mock_result "Doctor" "Pilot").career_b.salary = "low" ∨
      (mock_result "Doctor" "Pilot").career_b.salary = "medium" ∨
      (mock_result "Doctor" "Pilot").career_b.salary = "high") ∧
     ∃ r₀, _standardize_salary_format r₀ = .ok (mock_result "Doctor" "Pilot")) :=
  ⟨rfl, C3_salary_invariant ⟨false, false, false, none, .error "e1", .error "e2"⟩
    "Doctor" "Pilot" (mock_result "Doctor" "Pilot") rfl⟩

/-- C6: the salary normalizer is total and only returns "low", "medium" or
"high"; empty input gives "medium"; an input whose trimmed lower-casing is
one of the three tier names is returned directly; an input matching no
rule gives "medium". -/
theorem C6_normalizer_total :
    (∀ s : String, standardize_salary s = "low" ∨ standardize_salary s = "medium" ∨
      standardize_salary s = "high") ∧
    standardize_salary "" = "medium" ∧
    (∀ s : String, s ≠ "" →
      (salary_lower_of s = "low".toList ∨
       salary_lower_of s = "medium".toList ∨
       salary_lower_of s = "high".toList) →
      standardize_salary s = String.mk (salary_lower_of s)) ∧
    (∀ s : String, s ≠ "" →
      ¬(salary_lower_of s = "low".toList ∨
        salary_lower_of s = "medium".toList ∨
        salary_lower_of s = "high".toList) →
      anyMatch low_patterns (salary_lower_of s) = false →
      anyMatch high_patterns (salary_lower_of s) = false →
      anyMatch medium_patterns (salary_lower_of s) = false →
      standardize_salary s = "medium") := by
  refine ⟨standardize_salary_total, rfl, ?_, ?_⟩
  · intro s hne hmem
    unfold standardize_salary
    rw [if_neg hne, if_pos hmem]
  · intro s hne hmem hl hh hm
    unfold standardize_salary
    rw [if_neg hne, if_neg hmem, hl, hh, hm]
    simp

/-- C6 witness: the theorem applied at concrete inputs. -/
theorem C6_normalizer_total_witness :
    (standardize_salary "competitive pay" = "low" ∨
     standardize_salary "competitive pay" = "medium" ∨
     standardize_salary "competitive pay" = "high") ∧
    standardize_salary "" = "medium" ∧
    standardize_salary "  HIGH  " = String.mk (salary_lower_of "  HIGH  ") ∧
    standardize_salary "hello" = "medium" :=
  ⟨C6_normalizer_total.1 "competitive pay",
   C6_normalizer_total.2.1,
   C6_normalizer_total.2.2.1 "  HIGH  " (by decide) (by decide),
   C6_normalizer_total.2.2.2 "hello" (by decide) (by decide)
     (by decide) (by decide) (by decide)⟩

/-- C7: constructing a `CareerInfo` succeeds exactly when `pros` and
`cons` both have exactly 3 elements, and every successfully constructed
`CareerInfo` has exactly 3 pros and 3 cons. -/
theorem C7_career_info_invariant (o sk sal t : String) (pros cons : List String) :
    (pros.length = 3 ∧ cons.length = 3 →
      CareerInfo.make o sk sal t pros cons = .ok ⟨o, sk, sal, t, pros, cons⟩) ∧
    (pros.length ≠ 3 ∨ cons.length ≠ 3 →
      ∃ m, CareerInfo.make o sk sal t pros cons = .error m) ∧
    (∀ c, CareerInfo.make o sk sal t pros cons = .ok c →
      c.pros.length = 3 ∧ c.cons.length = 3) := by
  refine ⟨?_, ?_, ?_⟩
  · rintro ⟨h1, h2⟩
    unfold CareerInfo.make
    rw [if_pos h1, if_pos h2]
  · intro h
    unfold CareerInfo.make
    rcases h with h | h
    · rw [if_neg h]
      exact ⟨_, rfl⟩
    · by_cases h1 : pros.length = 3
      · rw [if_pos h1, if_neg h]
        exact ⟨_, rfl⟩
      · rw [if_neg h1]
        exact ⟨_, rfl⟩
  · intro c hc
    unfold CareerInfo.make at hc
    split at hc
    · split at hc
      · rename_i h1 h2
        cases hc
        exact ⟨h1, h2⟩
      · exact absurd hc (by simp)
    · exact absurd hc (by simp)

/-- C7 witness: length-2 pros fail, length-3 pros and cons succeed. -/
theorem C7_career_info_invariant_witness :
    (∃ m, CareerInfo.make "o" "s" "medium" "t" ["p1", "p2"] ["c1", "c2", "c3"] = .error m) ∧
    CareerInfo.make "o" "s" "medium" "t" ["p1", "p2", "p3"] ["c1", "c2", "c3"] =
      .ok ⟨"o", "s", "medium", "t", ["p1", "p2", "p3"], ["c1", "c2", "c3"]⟩ :=
  ⟨(C7_career_info_invariant "o" "s" "medium" "t" ["p1", "p2"] ["c1", "c2", "c3"]).2.1
      (Or.inl (by decide)),
   (C7_career_info_invariant "o" "s" "medium" "t" ["p1", "p2", "p3"] ["c1", "c2", "c3"]).1
      ⟨by decide, by decide⟩⟩

theorem decodeStrs_map (l : List String) : decodeStrs (l.map Value.str) = some l := by
  induction l with
  | nil => rfl
  | cons a t ih => simp [List.map, decodeStrs, ih]

/-- C9: serializing a validly constructed `ComparisonResult` to its
dictionary form and reconstructing it yields an equal result. -/
theorem C9_round_trip (r : ComparisonResult)
    (h1 : r.career_a.pros.length = 3) (h2 : r.career_a.cons.length = 3)
    (h3 : r.career_b.pros.length = 3) (h4 : r.career_b.cons.length = 3)
    (h5 : 2 ≤ r.decision_guide.length) :
    ComparisonResult.from_dict r.to_dict = .ok r := by
  obtain ⟨⟨o1, s1, sal1, t1, p1, c1⟩, ⟨o2, s2, sal2, t2, p2, c2⟩, g⟩ := r
  simp only [CareerInfo.pros, CareerInfo.cons, ComparisonResult.decision_guide] at h1 h2 h3 h4 h5
  simp [ComparisonResult.to_dict, CareerInfo.to_dictV, ComparisonResult.from_dict,
    getItem, careerInfo_of_kwargs, required_career_fields, asStr, asStrList,
    decodeStrs_map, CareerInfo.make, h1, h2, h3, h4, ComparisonResult.make, h5]

/-- C9 witness: the round trip at a concrete result. -/
theorem C9_round_trip_witness :
    ComparisonResult.from_dict (mock_result "Nurse" "Teacher").to_dict =
      .ok (mock_result "Nurse" "Teacher") :=
  C9_round_trip (mock_result "Nurse" "Teacher") rfl rfl rfl rfl (by decide)

/-- C4: a payload that is otherwise well-shaped but whose `career_a` (or
`career_b`) salary lower-cases to something outside {low, medium, high}
is rejected by `_parse_ai_response` with the salary-format error: the
gate never auto-corrects, and no normalization is involved in parsing. -/
theorem C4_strict_salary_gate :
    (∀ (jparse : List Char → Option Value) (resp : String)
       (vo vs vt vp vc cb gv : Value) (sal : String),
      ¬(resp = "" ∨ pstrip resp.toList = []) →
      jparse (clean_response resp.toList) = some (.obj
        [("career_a", .obj [("overview", vo), ("skills", vs), ("salary", .str sal),
                            ("time_to_enter", vt), ("pros", vp), ("cons", vc)]),
         ("career_b", cb), ("decision_guide", gv)]) →
      ¬(pyLowerS sal = "low" ∨ pyLowerS sal = "medium" ∨ pyLowerS sal = "high") →
      _parse_ai_response jparse resp = .error ("Invalid salary format in career_a: " ++
        pyLowerS sal ++ ". Must be low/medium/high")) ∧
    (∀ (jparse : List Char → Option Value) (resp : String)
       (voa vsa vta : Value) (sala : String) (pa ca : List Value)
       (vob vsb vtb vpb vcb gv : Value) (salb : String),
      ¬(resp = "" ∨ pstrip resp.toList = []) →
      jparse (clean_response resp.toList) = some (.obj
        [("career_a", .obj [("overview", voa), ("skills", vsa), ("salary", .str sala),
                            ("time_to_enter", vta), ("pros", .list pa), ("cons", .list ca)]),
         ("career_b", .obj [("overview", vob), ("skills", vsb), ("salary", .str salb),
                            ("time_to_enter", vtb), ("pros", vpb), ("cons", vcb)]),
         ("decision_guide", gv)]) →
      (pyLowerS sala = "low" ∨ pyLowerS sala = "medium" ∨ pyLowerS sala = "high") →
      pa.length = 3 → ca.length = 3 →
      ¬(pyLowerS salb = "low" ∨ pyLowerS salb = "medium" ∨ pyLowerS salb = "high") →
      _parse_ai_response jparse resp = .error ("Invalid salary format in career_b: " ++
        pyLowerS salb ++ ". Must be low/medium/high")) := by
  constructor
  · intro jparse resp vo vs vt vp vc cb gv sal hne hjp hbad
    unfold _parse_ai_response
    rw [if_neg hne, hjp]
    simp [parse_payload, top_required_fields, hasKey, getItem, validate_career,
      required_career_fields, hbad]
  · intro jparse resp voa vsa vta sala pa ca vob vsb vtb vpb vcb gv salb
      hne hjp hgood hpa hca hbad
    unfold _parse_ai_response
    rw [if_neg hne, hjp]
    simp [parse_payload, top_required_fields, hasKey, getItem, validate_career,
      required_career_fields, hgood, check_list_field, hpa, hca, hbad]

/-- C4 witness: both parts at concrete bad salaries. -/
theorem C4_strict_salary_gate_witness :
    _parse_ai_response (fun _ => some (.obj
        [("career_a", .obj [("overview", .str "o"), ("skills", .str "s"),
                            ("salary", .str "huge"), ("time_to_enter", .str "t"),
                            ("pros", .str "p"), ("cons", .str "c")]),
         ("career_b", .str "whatever"), ("decision_guide", .str "g")])) "x" =
      .error ("Invalid salary format in career_a: " ++
        pyLowerS "huge" ++ ". Must be low/medium/high") ∧
    _parse_ai_response (fun _ => some (.obj
        [("career_a", .obj [("overview", .str "o"), ("skills", .str "s"),
                            ("salary", .str "LOW"), ("time_to_enter", .str "t"),
                            ("pros", .list [.str "p1", .str "p2", .str "p3"]),
                            ("cons", .list [.str "c1", .str "c2", .str "c3"])]),
         ("career_b", .obj [("overview", .str "o"), ("skills", .str "s"),
                            ("salary", .str "about 90k"), ("time_to_enter", .str "t"),
                            ("pros", .str "p"), ("cons", .str "c")]),
         ("decision_guide", .str "g")])) "x" =
      .error ("Invalid salary format in career_b: " ++
        pyLowerS "about 90k" ++ ". Must be low/medium/high") :=
  ⟨C4_strict_salary_gate.1 _ "x" (.str "o") (.str "s") (.str "t") (.str "p") (.str "c")
      (.str "whatever") (.str "g") "huge" (by decide) rfl (by decide),
   C4_strict_salary_gate.2 _ "x" (.str "o") (.str "s") (.str "t") "LOW"
      [.str "p1", .str "p2", .str "p3"] [.str "c1", .str "c2", .str "c3"]
      (.str "o") (.str "s") (.str "t") (.str "p") (.str "c") (.str "g") "about 90k"
      (by decide) rfl (by decide) (by decide) (by decide) (by decide)⟩

/-- C5: for each of the 3 required top-level keys and each of the 6
required per-career keys, a payload that omits exactly that key (here:
from `career_a` for the per-career keys) is rejected with an error that
names the omitted key, whatever the remaining values are. -/
theorem C5_missing_key_errors :
    (∀ cbv gv : Value,
      _parse_ai_response (fun _ => some (.obj
          [("career_b", cbv), ("decision_guide", gv)])) "x" =
        .error ("Missing required fields: " ++ pyListRepr ["career_a"]) ∧
      isSubstrB "career_a".toList
        ("Missing required fields: " ++ pyListRepr ["career_a"]).toList = true) ∧
    (∀ cav gv : Value,
      _parse_ai_response (fun _ => some (.obj
          [("career_a", cav), ("decision_guide", gv)])) "x" =
        .error ("Missing required fields: " ++ pyListRepr ["career_b"]) ∧
      isSubstrB "career_b".toList
        ("Missing required fields: " ++ pyListRepr ["career_b"]).toList = true) ∧
    (∀ cav cbv : Value,
      _parse_ai_response (fun _ => some (.obj
          [("career_a", cav), ("career_b", cbv)])) "x" =
        .error ("Missing required fields: " ++ pyListRepr ["decision_guide"]) ∧
      isSubstrB "decision_guide".toList
        ("Missing required fields: " ++ pyListRepr ["decision_guide"]).toList = true) ∧
    (∀ v1 v2 v3 v4 v5 cbv gv : Value,
      _parse_ai_response (fun _ => some (.obj
          [("career_a", .obj [("skills", v1), ("salary", v2), ("time_to_enter", v3),
                              ("pros", v4), ("cons", v5)]),
           ("career_b", cbv), ("decision_guide", gv)])) "x" =
        .error ("Missing fields in career_a: " ++ pyListRepr ["overview"]) ∧
      isSubstrB "overview".toList
        ("Missing fields in career_a: " ++ pyListRepr ["overview"]).toList = true) ∧
    (∀ v1 v2 v3 v4 v5 cbv gv : Value,
      _parse_ai_response (fun _ => some (.obj
          [("career_a", .obj [("overview", v1), ("salary", v2), ("time_to_enter", v3),
                              ("pros", v4), ("cons", v5)]),
           ("career_b", cbv), ("decision_guide", gv)])) "x" =
        .error ("Missing fields in career_a: " ++ pyListRepr ["skills"]) ∧
      isSubstrB "skills".toList
        ("Missing fields in career_a: " ++ pyListRepr ["skills"]).toList = true) ∧
    (∀ v1 v2 v3 v4 v5 cbv gv : Value,
      _parse_ai_response (fun _ => some (.obj
          [("career_a", .obj [("overview", v1), ("skills", v2), ("time_to_enter", v3),
                              ("pros", v4), ("cons", v5)]),
           ("career_b", cbv), ("decision_guide", gv)])) "x" =
        .error ("Missing fields in career_a: " ++ pyListRepr ["salary"]) ∧
      isSubstrB "salary".toList
        ("Missing fields in career_a: " ++ pyListRepr ["salary"]).toList = true) ∧
    (∀ v1 v2 v3 v4 v5 cbv gv : Value,
      _parse_ai_response (fun _ => some (.obj
          [("career_a", .obj [("overview", v1), ("skills", v2), ("salary", v3),
                              ("pros", v4), ("cons", v5)]),
           ("career_b", cbv), ("decision_guide", gv)])) "x" =
        .error ("Missing fields in career_a: " ++ pyListRepr ["time_to_enter"]) ∧
      isSubstrB "time_to_enter".toList
        ("Missing fields in career_a: " ++ pyListRepr ["time_to_enter"]).toList = true) ∧
    (∀ v1 v2 v3 v4 v5 cbv gv : Value,
      _parse_ai_response (fun _ => some (.obj
          [("career_a", .obj [("overview", v1), ("skills", v2), ("salary", v3),
                              ("time_to_enter", v4), ("cons", v5)]),
           ("career_b", cbv), ("decision_guide", gv)])) "x" =
        .error ("Missing fields in career_a: " ++ pyListRepr ["pros"]) ∧
      isSubstrB "pros".toList
        ("Missing fields in career_a: " ++ pyListRepr ["pros"]).toList = true) ∧
    (∀ v1 v2 v3 v4 v5 cbv gv : Value,
      _parse_ai_response (fun _ => some (.obj
          [("career_a", .obj [("overview", v1), ("skills", v2), ("salary", v3),
                              ("time_to_enter", v4), ("pros", v5)]),
           ("career_b", cbv), ("decision_guide", gv)])) "x" =
        .error ("Missing fields in career_a: " ++ pyListRepr ["cons"]) ∧
      isSubstrB "cons".toList
        ("Missing fields in career_a: " ++ pyListRepr ["cons"]).toList = true) := by
  have hx : ¬(("x" : String) = "" ∨ pstrip ("x" : String).toList = []) := by decide
  refine ⟨fun cbv gv => ⟨?_, by decide⟩, fun cav gv => ⟨?_, by decide⟩,
    fun cav cbv => ⟨?_, by decide⟩, fun v1 v2 v3 v4 v5 cbv gv => ⟨?_, by decide⟩,
    fun v1 v2 v3 v4 v5 cbv gv => ⟨?_, by decide⟩, fun v1 v2 v3 v4 v5 cbv gv => ⟨?_, by decide⟩,
    fun v1 v2 v3 v4 v5 cbv gv => ⟨?_, by decide⟩, fun v1 v2 v3 v4 v5 cbv gv => ⟨?_, by decide⟩,
    fun v1 v2 v3 v4 v5 cbv gv => ⟨?_, by decide⟩⟩ <;>
  · unfold _parse_ai_response
    rw [if_neg hx]
    simp [parse_payload, top_required_fields, hasKey, getItem,
      validate_career, required_career_fields]

/-- C5 witness: the first conjunct at concrete leaf values. -/
theorem C5_missing_key_errors_witness :
    _parse_ai_response (fun _ => some (.obj
        [("career_b", .str "b"), ("decision_guide", .str "g")])) "x" =
      .error ("Missing required fields: " ++ pyListRepr ["career_a"]) ∧
    isSubstrB "career_a".toList
      ("Missing required fields: " ++ pyListRepr ["career_a"]).toList = true :=
  C5_missing_key_errors.1 (.str "b") (.str "g")

/-! ### Lemmas on stripping and fences (towards C8) -/

theorem lstrip_cons_of_not_ws (c : Char) (t : List Char)
    (h : c.isWhitespace = false) : lstrip (c :: t) = c :: t := by
  simp [lstrip, List.dropWhile_cons, h]

theorem rstrip_eq_self_of_getLast (x : List Char) (c : Char)
    (h : x.getLast? = some c) (hc : c.isWhitespace = false) : rstrip x = x := by
  unfold rstrip
  have hr : x.reverse.head? = some c := by rw [List.head?_reverse, h]
  cases hx : x.reverse with
  | nil => rw [hx] at hr; simp at hr
  | cons a t =>
    rw [hx] at hr
    injection hr with hac
    subst hac
    rw [List.dropWhile_cons, hc]
    simp [← hx]

theorem pstrip_eq_self (x : List Char) (a b : Char)
    (hh : x.head? = some a) (ha : a.isWhitespace = false)
    (hl : x.getLast? = some b) (hb : b.isWhitespace = false) : pstrip x = x := by
  unfold pstrip
  cases x with
  | nil => simp at hh
  | cons c t =>
    injection hh with hca
    subst hca
    rw [lstrip_cons_of_not_ws _ t ha]
    exact rstrip_eq_self_of_getLast _ b hl hb

theorem pstrip_wrap (f g m : List Char) (cf cg : Char)
    (hf : f.head? = some cf) (hcf : cf.isWhitespace = false)
    (hg : g.getLast? = some cg) (hcg : cg.isWhitespace = false) (hgne : g ≠ []) :
    pstrip (f ++ m ++ g) = f ++ m ++ g := by
  have hfne : f ≠ [] := by
    intro h0
    rw [h0] at hf
    simp at hf
  apply pstrip_eq_self _ cf cg
  · rw [List.append_assoc, List.head?_append_of_ne_nil _ hfne]
    exact hf
  · exact hcf
  · rw [List.getLast?_append_of_ne_nil _ hgne]
    exact hg
  · exact hcg

theorem isPrefixOf_false_of_head_ne (l y : List Char) (x c : Char)
    (hl : l.head? = some x) (hy : y.head? = some c) (hne : (x == c) = false) :
    l.isPrefixOf y = false := by
  cases l with
  | nil => simp at hl
  | cons a as =>
    cases y with
    | nil => simp at hy
    | cons b bs =>
      injection hl with h1
      injection hy with h2
      subst h1
      subst h2
      simp only [List.isPrefixOf]
      rw [hne, Bool.false_and]

theorem head?_of_isPre (x y : List Char) (h : x <+: y) (hne : x ≠ []) :
    y.head? = x.head? := by
  obtain ⟨t, rfl⟩ := h
  cases x with
  | nil => exact absurd rfl hne
  | cons a l => rfl

theorem rstrip_isPre (x : List Char) : rstrip x <+: x := by
  unfold rstrip
  have h : List.dropWhile Char.isWhitespace x.reverse <:+ x.reverse :=
    List.dropWhile_suffix _
  have h2 : (List.dropWhile Char.isWhitespace x.reverse).reverse <+: x.reverse.reverse :=
    List.reverse_prefix.mpr h
  rwa [List.reverse_reverse] at h2

/-- Cleaning a bare (unfenced) JSON-object payload just strips it. -/
theorem clean_response_plain (p : List Char)
    (hh : (pstrip p).head? = some (Char.ofNat 123))
    (hl : (pstrip p).getLast? = some (Char.ofNat 125)) :
    clean_response p = pstrip p := by
  have h7 : fence7.isPrefixOf (pstrip p) = false :=
    isPrefixOf_false_of_head_ne _ _ (Char.ofNat 96) (Char.ofNat 123) (by decide) hh
      (by decide)
  have h3 : fence3.isPrefixOf (pstrip p) = false :=
    isPrefixOf_false_of_head_ne _ _ (Char.ofNat 96) (Char.ofNat 123) (by decide) hh
      (by decide)
  have hs : fence3.isSuffixOf (pstrip p) = false := by
    show fence3.reverse.isPrefixOf (pstrip p).reverse = false
    apply isPrefixOf_false_of_head_ne _ _ (Char.ofNat 96) (Char.ofNat 125)
    · decide
    · rw [List.head?_reverse]
      exact hl
    · decide
  have h1 : clean_strip1 (pstrip p) = pstrip p := by
    unfold clean_strip1
    rw [h7, h3]
    simp
  have h2 : clean_strip2 (pstrip p) = pstrip p := by
    unfold clean_strip2
    rw [hs]
    simp
  unfold clean_response
  rw [h1, h2]
  exact pstrip_eq_self _ _ _ hh (by decide) hl (by decide)

/-- Cleaning a payload wrapped in a labeled fence strips down to the
stripped payload. -/
theorem clean_response_wrap7 (p : List Char) :
    clean_response (fence7 ++ p ++ fence3) = pstrip p := by
  have hps : pstrip (fence7 ++ p ++ fence3) = fence7 ++ p ++ fence3 :=
    pstrip_wrap fence7 fence3 p (Char.ofNat 96) (Char.ofNat 96) (by decide) (by decide)
      (by decide) (by decide) (by decide)
  have h7 : fence7.isPrefixOf (fence7 ++ p ++ fence3) = true := by
    rw [ List.isPrefixOf_iff_prefix, List.append_assoc]
    exact List.prefix_append _ _
  have hdrop : (fence7 ++ p ++ fence3).drop 7 = p ++ fence3 := by
    rw [List.append_assoc]
    exact List.drop_left fence7 (p ++ fence3)
  have hsuf : fence3.isSuffixOf (p ++ fence3) = true := by
    show fence3.reverse.isPrefixOf (p ++ fence3).reverse = true
    rw [ List.isPrefixOf_iff_prefix, List.reverse_prefix]
    exact List.suffix_append _ _
  have htake : (p ++ fence3).take ((p ++ fence3).length - 3) = p := by
    have hlen : (p ++ fence3).length - 3 = p.length := by
      rw [List.length_append, (by decide : fence3.length = 3)]
      omega
    rw [hlen]
    exact List.take_left p fence3
  have h1 : clean_strip1 (fence7 ++ p ++ fence3) = p ++ fence3 := by
    unfold clean_strip1
    rw [h7, if_pos rfl]
    exact hdrop
  have h2 : clean_strip2 (p ++ fence3) = p := by
    unfold clean_strip2
    rw [hsuf, if_pos rfl]
    exact htake
  unfold clean_response
  rw [hps, h1, h2]

/-- Cleaning a payload wrapped in a bare fence strips down to the
stripped payload, provided the stripped payload opens with a brace. -/
theorem clean_response_wrap3 (p : List Char)
    (hh : (pstrip p).head? = some (Char.ofNat 123)) :
    clean_response (fence3 ++ p ++ fence3) = pstrip p := by
  have hps : pstrip (fence3 ++ p ++ fence3) = fence3 ++ p ++ fence3 :=
    pstrip_wrap fence3 fence3 p (Char.ofNat 96) (Char.ofNat 96) (by decide) (by decide)
      (by decide) (by decide) (by decide)
  have h7 : fence7.isPrefixOf (fence3 ++ p ++ fence3) = false := by
    by_contra hcon
    have hb : fence7.isPrefixOf (fence3 ++ p ++ fence3) = true := by
      revert hcon
      cases fence7.isPrefixOf (fence3 ++ p ++ fence3) <;> simp
    rw [(by decide : fence7 = fence3 ++ "json".toList), List.append_assoc,
      List.isPrefixOf_iff_prefix, List.prefix_append_right_inj] at hb
    have hhead := head?_of_isPre _ _ hb (by decide)
    rw [(by decide : ("json".toList).head? = some (Char.ofNat 106))] at hhead
    cases hp : p with
    | nil =>
      rw [hp, List.nil_append] at hhead
      exact absurd hhead (by decide)
    | cons c t =>
      rw [hp, List.head?_append_of_ne_nil _ (by simp)] at hhead
      injection hhead with hc
      by_cases hws : c.isWhitespace = true
      · rw [hc] at hws
        exact absurd hws (by decide)
      · have hws' : c.isWhitespace = false := by
          revert hws
          cases c.isWhitespace <;> simp
        have hsp : pstrip (c :: t) = rstrip (c :: t) := by
          unfold pstrip
          rw [lstrip_cons_of_not_ws _ t hws']
        have hne2 : rstrip (c :: t) ≠ [] := by
          intro h0
          rw [hp, hsp, h0] at hh
          simp at hh
        have hq := head?_of_isPre _ _ (rstrip_isPre (c :: t)) hne2
        rw [← hsp] at hq
        rw [hp] at hh
        rw [hh] at hq
        injection hq with hq'
        rw [hq'] at hc
        exact absurd hc (by decide)
  have h3 : fence3.isPrefixOf (fence3 ++ p ++ fence3) = true := by
    rw [ List.isPrefixOf_iff_prefix, List.append_assoc]
    exact List.prefix_append _ _
  have hdrop : (fence3 ++ p ++ fence3).drop 3 = p ++ fence3 := by
    rw [List.append_assoc]
    exact List.drop_left fence3 (p ++ fence3)
  have hsuf : fence3.isSuffixOf (p ++ fence3) = true := by
    show fence3.reverse.isPrefixOf (p ++ fence3).reverse = true
    rw [ List.isPrefixOf_iff_prefix, List.reverse_prefix]
    exact List.suffix_append _ _
  have htake : (p ++ fence3).take ((p ++ fence3).length - 3) = p := by
    have hlen : (p ++ fence3).length - 3 = p.length := by
      rw [List.length_append, (by decide : fence3.length = 3)]
      omega
    rw [hlen]
    exact List.take_left p fence3
  have h1 : clean_strip1 (fence3 ++ p ++ fence3) = p ++ fence3 := by
    unfold clean_strip1
    rw [h7]
    simp only [Bool.false_eq_true, if_false]
    rw [h3, if_pos rfl]
    exact hdrop
  have h2 : clean_strip2 (p ++ fence3) = p := by
    unfold clean_strip2
    rw [hsuf, if_pos rfl]
    exact htake
  unfold clean_response
  rw [hps, h1, h2]

/-- C8: parsing a JSON-object payload wrapped in a leading labeled
(```json) or bare (```) code fence and a trailing fence yields the same
result as parsing the payload unwrapped. -/
theorem C8_fence_insensitive (jp : List Char → Option Value) (P : String)
    (r : ComparisonResult)
    (hh : (pstrip P.toList).head? = some (Char.ofNat 123))
    (hl : (pstrip P.toList).getLast? = some (Char.ofNat 125))
    (hok : _parse_ai_response jp P = .ok r) :
    _parse_ai_response jp ("```json" ++ P ++ "```") = .ok r ∧
    _parse_ai_response jp ("```" ++ P ++ "```") = .ok r := by
  have hne : ¬(P = "" ∨ pstrip P.toList = []) := by
    intro hcon
    unfold _parse_ai_response at hok
    rw [if_pos hcon] at hok
    simp at hok
  have hwl : ("```json" ++ P ++ "```").toList = fence7 ++ P.toList ++ fence3 := by
    rw [toList_append, toList_append]
    rfl
  have hwb : ("```" ++ P ++ "```").toList = fence3 ++ P.toList ++ fence3 := by
    rw [toList_append, toList_append]
    rfl
  unfold _parse_ai_response at hok
  rw [if_neg hne, clean_response_plain P.toList hh hl] at hok
  constructor
  · have hne7 : ¬(("```json" ++ P ++ "```") = "" ∨
        pstrip ("```json" ++ P ++ "```").toList = []) := by
      intro hcon
      rcases hcon with hcon | hcon
      · rw [hcon] at hwl
        have h3 := congrArg List.length hwl
        rw [(by decide : (("" : String).toList).length = 0), List.length_append,
          List.length_append, (by decide : fence7.length = 7),
          (by decide : fence3.length = 3)] at h3
        omega
      · rw [hwl, pstrip_wrap fence7 fence3 P.toList (Char.ofNat 96) (Char.ofNat 96)
          (by decide) (by decide) (by decide) (by decide) (by decide)] at hcon
        have h3 := congrArg List.length hcon
        rw [List.length_append, List.length_append, (by decide : fence7.length = 7),
          (by decide : fence3.length = 3), List.length_nil] at h3
        omega
    unfold _parse_ai_response
    rw [if_neg hne7, hwl, clean_response_wrap7 P.toList]
    exact hok
  · have hne3 : ¬(("```" ++ P ++ "```") = "" ∨
        pstrip ("```" ++ P ++ "```").toList = []) := by
      intro hcon
      rcases hcon with hcon | hcon
      · rw [hcon] at hwb
        have h3 := congrArg List.length hwb
        rw [(by decide : (("" : String).toList).length = 0), List.length_append,
          List.length_append, (by decide : fence3.length = 3)] at h3
        omega
      · rw [hwb, pstrip_wrap fence3 fence3 P.toList (Char.ofNat 96) (Char.ofNat 96)
          (by decide) (by decide) (by decide) (by decide) (by decide)] at hcon
        have h3 := congrArg List.length hcon
        rw [List.length_append, List.length_append,
          (by decide : fence3.length = 3), List.length_nil] at h3
        omega
    unfold _parse_ai_response
    rw [if_neg hne3, hwb, clean_response_wrap3 P.toList hh]
    exact hok

/-- C8 witness: fenced and unfenced parses of a concrete payload agree. -/
theorem C8_fence_insensitive_witness :
    _parse_ai_response witness_jparse ("```json" ++ "\x7bmock\x7d" ++ "```") =
      .ok witness_result ∧
    _parse_ai_response witness_jparse ("```" ++ "\x7bmock\x7d" ++ "```") =
      .ok witness_result :=
  C8_fence_insensitive witness_jparse "\x7bmock\x7d" witness_result
    (by decide) (by decide) rfl

/-- C10: on success, `_standardize_salary_format` changes at most the two
salary fields; every other field of the result equals that of the input. -/
theorem C10_standardize_frame (r r' : ComparisonResult)
    (h : _standardize_salary_format r = .ok r') :
    r'.career_a.overview = r.career_a.overview ∧
    r'.career_a.skills = r.career_a.skills ∧
    r'.career_a.time_to_enter = r.career_a.time_to_enter ∧
    r'.career_a.pros = r.career_a.pros ∧
    r'.career_a.cons = r.career_a.cons ∧
    r'.career_b.overview = r.career_b.overview ∧
    r'.career_b.skills = r.career_b.skills ∧
    r'.career_b.time_to_enter = r.career_b.time_to_enter ∧
    r'.career_b.pros = r.career_b.pros ∧
    r'.career_b.cons = r.career_b.cons ∧
    r'.decision_guide = r.decision_guide := by
  rw [standardize_format_ok r r' h]
  exact ⟨rfl, rfl, rfl, rfl, rfl, rfl, rfl, rfl, rfl, rfl, rfl⟩

/-- C10 witness: the frame condition at a concrete input whose salaries
get rewritten. -/
theorem C10_standardize_frame_witness :
    _standardize_salary_format
        ⟨⟨"o1", "s1", "45k", "t1", ["a", "b", "c"], ["d", "e", "f"]⟩,
         ⟨"o2", "s2", "85,000", "t2", ["g", "h", "i"], ["j", "k", "l"]⟩,
         ["g1", "g2"]⟩ =
      .ok ⟨⟨"o1", "s1", "low", "t1", ["a", "b", "c"], ["d", "e", "f"]⟩,
           ⟨"o2", "s2", "high", "t2", ["g", "h", "i"], ["j", "k", "l"]⟩,
           ["g1", "g2"]⟩ ∧
    ("low" : String) = "low" ∧ (["g1", "g2"] : List String) = ["g1", "g2"] ∧
    (⟨⟨"o1", "s1", "low", "t1", ["a", "b", "c"], ["d", "e", "f"]⟩,
      ⟨"o2", "s2", "high", "t2", ["g", "h", "i"], ["j", "k", "l"]⟩,
      ["g1", "g2"]⟩ : ComparisonResult).career_a.overview = "o1" :=
  ⟨rfl, rfl, rfl,
   (C10_standardize_frame
      ⟨⟨"o1", "s1", "45k", "t1", ["a", "b", "c"], ["d", "e", "f"]⟩,
       ⟨"o2", "s2", "85,000", "t2", ["g", "h", "i"], ["j", "k", "l"]⟩,
       ["g1", "g2"]⟩
      ⟨⟨"o1", "s1", "low", "t1", ["a", "b", "c"], ["d", "e", "f"]⟩,
       ⟨"o2", "s2", "high", "t2", ["g", "h", "i"], ["j", "k", "l"]⟩,
       ["g1", "g2"]⟩ rfl).1⟩

end Referee
